import Mathlib

/-!
Verification of the Blackboard Collaborate Ultra launcher
(`blackboard_collaborate.py`) against its specification.

The Python program drives a remote Firefox session through selenium.  We
embed it shallowly: every call the program issues against the remote
session is recorded as an `Event`, pure helpers (preference merging,
base64 data URIs, xpath construction) become Lean functions, and the
fallible configuration entry point returns the trace it produced together
with an optional error.  The remote driver itself is an external
collaborator; where a claim depends on its behaviour we model the
contract the specification states for it and say so in the docstring.
-/

set_option autoImplicit false

namespace BbCollab

/-- Values of the `PrefsType = Dict[str, Union[bool, int]]` alias used for
Firefox preferences. -/
inductive PrefValue where
  | bool (b : Bool)
  | int (n : Int)
deriving DecidableEq

/-- Values of the `JavascriptTypes` union that can cross the
`execute_script` boundary (the program only ever sends booleans, integers,
floats and strings). -/
inductive JSValue where
  | bool (b : Bool)
  | int (n : Int)
  | float (x : ℚ)
  | str (s : String)
deriving DecidableEq

/-- `true` exactly on the boolean variant of `JSValue`. -/
def JSValue.isBool : JSValue → Bool
  | .bool _ => true
  | _ => false

/-- How an element handle was obtained (`find_element_by_id` or
`find_element_by_xpath`). -/
inductive Locator where
  | byId (id : String)
  | byXPath (xpath : String)
deriving DecidableEq

/-- One call issued against the remote browser session.  `probeOk` /
`probeFail` are the `get_window_position` liveness probes of
`wait_until_window_close` (a probe fails by raising `WebDriverException`
once the session is gone). -/
inductive Event where
  | createSession (prefs : List (String × PrefValue)) (customProfile : Bool)
  | implicitlyWait (seconds : Nat)
  | maximizeWindow
  | navigate (url : String)
  | findById (id : String)
  | findByXPath (xpath : String)
  | sendKeys (target : Locator) (text : String)
  | execClick (target : Locator)
  | switchToFrame (target : Locator)
  | switchToDefaultContent
  | setStorage (key : String) (value : JSValue)
  | sleepEv (seconds : Nat)
  | probeOk
  | probeFail
  | quitSession
deriving DecidableEq

/-- First-match lookup in an association list with string keys (the
observable content of a Python `dict`). -/
def lookupAssoc {β : Type} : List (String × β) → String → Option β
  | [], _ => none
  | (k', v) :: rest, k => if k' = k then some v else lookupAssoc rest k

/-- Python `dict` insertion: replace the value of an existing key in
place, otherwise append the new binding. -/
def insertAssoc {β : Type} : List (String × β) → String → β → List (String × β)
  | [], k, v => [(k, v)]
  | (k', v') :: rest, k, v =>
      if k' = k then (k', v) :: rest else (k', v') :: insertAssoc rest k v

/-- Python `{**base, **extra}`: start from `base` and insert every binding
of `extra` in order, later bindings overwriting earlier ones. -/
def mergeAssoc {β : Type} (base extra : List (String × β)) : List (String × β) :=
  extra.foldl (fun acc kv => insertAssoc acc kv.1 kv.2) base

/-- The fixed baseline preference set `self.prefs` from
`WebBrowser.__init__`. -/
def defaultPrefs : List (String × PrefValue) :=
  [("media.navigator.streams.fake", .bool true),
   ("browser.link.open_newwindow", .int 1),
   ("browser.link.open_newwindow.restriction", .int 0),
   ("media.autoplay.default", .int 0)]

/-- `self.driver.implicitly_wait(45)`: the single implicit wait bound (in
seconds) installed once at session start. -/
def implicitWaitSeconds : Nat := 45

/-- The session calls issued by `WebBrowser.__init__`: create the driver
with the merged preferences (and optionally a custom profile directory),
install the implicit wait, maximize the window. -/
def initEvents (extraPrefs : List (String × PrefValue)) (customProfile : Bool) :
    List Event :=
  [.createSession (mergeAssoc defaultPrefs extraPrefs) customProfile,
   .implicitlyWait implicitWaitSeconds,
   .maximizeWindow]

/-- The xpath string built by `element_by_text` for a full-text match:
`//{element_type}[text()="{text}"]`. -/
def xpathExact (text elementType : String) : String :=
  "//" ++ elementType ++ "[text()=\"" ++ text ++ "\"]"

/-- The xpath string built by `element_by_text` for a partial-text match:
`//{element_type}[contains(text(), "{text}")]`. -/
def xpathContains (text elementType : String) : String :=
  "//" ++ elementType ++ "[contains(text(), \"" ++ text ++ "\")]"

/-- Calls issued by `BlackboardCollaborate.sign_in`. -/
def sign_in (base_url username password : String) : List Event :=
  [.navigate base_url,
   .findById "user_id", .sendKeys (.byId "user_id") username,
   .findById "password", .sendKeys (.byId "password") password,
   .findById "entry-login", .execClick (.byId "entry-login"),
   .findById "topframe.logout.label"]

/-- The collab-ultra tool URL built by `launch_collaborate`. -/
def collabUrl (base_url course_id : String) : String :=
  base_url ++ "/webapps/collab-ultra/tool/collabultra?course_id=" ++ course_id

/-- Calls issued by `BlackboardCollaborate.launch_collaborate`. -/
def launch_collaborate (base_url course_id launch_button : String) : List Event :=
  [.navigate (collabUrl base_url course_id),
   .findById "collabUltraLtiFrame", .switchToFrame (.byId "collabUltraLtiFrame"),
   .findByXPath (xpathExact launch_button "*"),
   .execClick (.byXPath (xpathExact launch_button "*")),
   .sleepEv 1,
   .findByXPath (xpathContains "Join" "*"),
   .execClick (.byXPath (xpathContains "Join" "*")),
   .switchToDefaultContent]

/-- Base64 alphabet (RFC 4648), as used by Python's `base64.b64encode`. -/
def b64alphabet : List Char :=
  ['A','B','C','D','E','F','G','H','I','J','K','L','M','N','O','P',
   'Q','R','S','T','U','V','W','X','Y','Z',
   'a','b','c','d','e','f','g','h','i','j','k','l','m','n','o','p',
   'q','r','s','t','u','v','w','x','y','z',
   '0','1','2','3','4','5','6','7','8','9','+','/']

/-- The character encoding a 6-bit group. -/
def encChar (n : Nat) : Char := b64alphabet.getD n '?'

/-- The 6-bit group encoded by a base64 character. -/
def decChar (c : Char) : Nat := b64alphabet.findIdx (· == c)

/-- Python `base64.b64encode`: 3-byte groups become 4 alphabet
characters; a trailing group of 1 or 2 bytes is padded with `=`. -/
def b64encodeRaw : List Nat → List Char
  | b0 :: b1 :: b2 :: rest =>
      encChar (b0 / 4) :: encChar (b0 % 4 * 16 + b1 / 16) ::
      encChar (b1 % 16 * 4 + b2 / 64) :: encChar (b2 % 64) :: b64encodeRaw rest
  | [b0, b1] => [encChar (b0 / 4), encChar (b0 % 4 * 16 + b1 / 16),
                 encChar (b1 % 16 * 4), '=']
  | [b0] => [encChar (b0 / 4), encChar (b0 % 4 * 16), '=', '=']
  | [] => []

/-- The 6-bit groups of the base64 body (no padding characters). -/
def b64sextets : List Nat → List Nat
  | b0 :: b1 :: b2 :: rest =>
      b0 / 4 :: (b0 % 4 * 16 + b1 / 16) :: (b1 % 16 * 4 + b2 / 64) ::
      b2 % 64 :: b64sextets rest
  | [b0, b1] => [b0 / 4, b0 % 4 * 16 + b1 / 16, b1 % 16 * 4]
  | [b0] => [b0 / 4, b0 % 4 * 16]
  | [] => []

/-- Number of `=` padding characters appended for an input of length `n`. -/
def b64padCount (n : Nat) : Nat :=
  match n % 3 with
  | 1 => 2
  | 2 => 1
  | _ => 0

/-- Python `bytes.strip` from the left for a single character. -/
def lstripChar (c : Char) (l : List Char) : List Char :=
  l.dropWhile (· == c)

/-- Python `bytes.strip` from the right for a single character. -/
def rstripChar (c : Char) (l : List Char) : List Char :=
  (l.reverse.dropWhile (· == c)).reverse

/-- Python `bytes.strip(b"=")`: remove the character from both ends. -/
def stripChar (c : Char) (l : List Char) : List Char :=
  rstripChar c (lstripChar c l)

/-- The mimetype actually used by `bytes_to_data_uri`: Python falls back
to `application/octet-stream` whenever `mimetype` is falsy, which covers
both `None` and the empty string. -/
def b64mime : Option String → String
  | none => "application/octet-stream"
  | some s => if s = "" then "application/octet-stream" else s

/-- `WebBrowser.bytes_to_data_uri`: base64-encode, strip padding, wrap in
a `data:` URI. -/
def bytes_to_data_uri (data : List Nat) (mimetype : Option String) : String :=
  "data:" ++ b64mime mimetype ++ ";base64," ++
    String.mk (stripChar '=' (b64encodeRaw data))

/-- Canonical decoder for unpadded base64: 4 characters give 3 bytes, a
trailing group of 3 (resp. 2) characters gives 2 (resp. 1) bytes. -/
def b64decodeSextets : List Nat → List Nat
  | s0 :: s1 :: s2 :: s3 :: rest =>
      (s0 * 4 + s1 / 16) :: (s1 % 16 * 16 + s2 / 4) :: (s2 % 4 * 64 + s3) ::
      b64decodeSextets rest
  | [s0, s1, s2] => [s0 * 4 + s1 / 16, s1 % 16 * 16 + s2 / 4]
  | [s0, s1] => [s0 * 4 + s1 / 16]
  | _ => []

/-- Decode an unpadded base64 string back to bytes. -/
def b64decodeString (s : String) : List Nat :=
  b64decodeSextets (s.data.map decChar)

/-- `_LocalStorage.__setitem__`: the raw `execute_script` storage write,
with the value passed through unchanged (selenium serializes a Python
bool as a native JSON boolean). -/
def localstorage_setitem_events (key : String) (value : JSValue) : List Event :=
  [.setStorage key value]

/-- Effect of `_LocalStorage.__setitem__` on the remote page's
`localStorage` map. -/
def localstorage_setitem_state (st : List (String × JSValue)) (key : String)
    (value : JSValue) : List (String × JSValue) :=
  insertAssoc st key value

/-- `_LocalStorage.__getitem__`: the body is the bare expression
`NotImplemented`, so the method returns Python `None` for every key and
never consults the remote storage. -/
def localstorage_getitem (st : List (String × JSValue)) (key : String) :
    Option JSValue :=
  none

/-- Calls issued by `BlackboardCollaborate.configure_collaborate`.  The
optional profile picture is the bytes read from disk together with the
guessed mimetype. -/
def configure_collaborate (profile_picture : Option (List Nat × Option String)) :
    List Event :=
  [.findById "site-loading",
   .setStorage "techcheck.initial-techcheck" (.str "complete"),
   .setStorage "techcheck.status" (.str "complete"),
   .setStorage "ftue.announcement.introduction" (.bool true),
   .setStorage "chat.defaultchannel" (.str "everyone"),
   .setStorage "profile.notification.roster.visual" (.bool false)] ++
  (match profile_picture with
   | some (bytes, mime) =>
       [.setStorage "profile.avatar" (.str (bytes_to_data_uri bytes mime))]
   | none => []) ++
  [.findById "side-panel-open", .execClick (.byId "side-panel-open")]

/-- The loop of `wait_until_window_close` when the window closes after
`k` successful liveness probes: each iteration sleeps 5 seconds and then
probes; the `(k+1)`-st probe raises `WebDriverException` and the caught
exception makes the method return. -/
def waitEvents : Nat → List Event
  | 0 => [.sleepEv 5, .probeFail]
  | k + 1 => .sleepEv 5 :: .probeOk :: waitEvents k

/-- The loop of `wait_until_window_close` when a `KeyboardInterrupt`
arrives during the `(j+1)`-st sleep; the caught exception makes the
method return. -/
def waitInterrupted : Nat → List Event
  | 0 => []
  | j + 1 => .sleepEv 5 :: .probeOk :: waitInterrupted j

/-- How a `wait_until_window_close` call ends. -/
inductive WaitEnd where
  | windowClosed
  | interrupted
deriving DecidableEq

/-- Fate of the blocking wait: either the remote session terminates after
`k` successful probes, or the process is interrupted during sleep `j+1`. -/
inductive SessionFate where
  | closesAfter (k : Nat)
  | interruptAfter (j : Nat)

/-- `WebBrowser.wait_until_window_close`: trace and outcome.  Both the
`WebDriverException` of a failed probe and a `KeyboardInterrupt` are
caught by the same handler, so the method returns normally in both
cases. -/
def wait_until_window_close : SessionFate → List Event × WaitEnd
  | .closesAfter k => (waitEvents k, .windowClosed)
  | .interruptAfter j => (waitInterrupted j, .interrupted)

/-- The keyword arguments of `BlackboardCollaborate.run_all`.  The five
fields without a default value are required: Python raises `TypeError`
(the failure the specification names `MissingParameterError`) when the
configuration section supplies no binding for one of them. -/
structure RunAllArgs where
  base_url : Option String
  username : Option String
  password : Option String
  course_id : Option String
  launch_button : Option String
  hide_ui : Bool := false
  raspberry_pi : Bool := false
  driver_path : String := "geckodriver"
  profile_picture : Option (List Nat × Option String) := none

/-- Names of the required `run_all` parameters that the configuration
failed to supply (the parameters Python's `TypeError` message reports). -/
def missingParams (a : RunAllArgs) : List String :=
  (if a.base_url.isNone then ["base_url"] else []) ++
  (if a.username.isNone then ["username"] else []) ++
  (if a.password.isNone then ["password"] else []) ++
  (if a.course_id.isNone then ["course_id"] else []) ++
  (if a.launch_button.isNone then ["launch_button"] else [])

/-- Errors surfaced by the embedded `run_all`.  `missingParameter` models
the `TypeError` Python raises while binding the keyword arguments — the
error the specification calls `MissingParameterError`; it carries the
names of the missing required parameters. -/
inductive RunError where
  | missingParameter (params : List String)
deriving DecidableEq

/-- The extra preferences accumulated by `run_all` before the session is
created: the hardware-acceleration block when running on a Raspberry Pi,
and the `userChrome.css` toggle when hiding the UI.  Both updates insert
fresh, disjoint keys into the initially empty dict, so the dict's content
is the concatenation. -/
def extraPrefsFor (raspberry_pi hide_ui : Bool) : List (String × PrefValue) :=
  (if raspberry_pi then
    [("layers.acceleration.force-enabled", .bool true),
     ("media.ffmpeg.vaapi.enabled", .bool true),
     ("webgl.force-enabled", .bool true),
     ("media.mediasource.webm.enabled", .bool false),
     ("media.webm.enabled", .bool false)]
   else []) ++
  (if hide_ui then
    [("toolkit.legacyUserProfileCustomizations.stylesheets", .bool true)]
   else [])

/-- `BlackboardCollaborate.run_all`, with the session closing after
`closesAfter` successful liveness probes.  Binding the keyword arguments
happens before the body runs, so a missing required parameter produces
the error with an empty trace; otherwise the `with` block launches the
browser, runs `sign_in`, `launch_collaborate`, `configure_collaborate`
and `wait_until_window_close`, and finally quits the session. -/
def run_all (a : RunAllArgs) (closesAfter : Nat) : List Event × Option RunError :=
  match a.base_url, a.username, a.password, a.course_id, a.launch_button with
  | some b, some u, some p, some ci, some lb =>
      (initEvents (extraPrefsFor a.raspberry_pi a.hide_ui) a.hide_ui ++
       sign_in b u p ++
       launch_collaborate b ci lb ++
       configure_collaborate a.profile_picture ++
       waitEvents closesAfter ++
       [.quitSession], none)
  | _, _, _, _, _ => ([], some (.missingParameter (missingParams a)))

/-- A fully populated configuration record. -/
def fullArgs (b u p ci lb : String) : RunAllArgs :=
  { base_url := some b, username := some u, password := some p,
    course_id := some ci, launch_button := some lb }

/-- The URL of a navigation event. -/
def navUrlOf : Event → Option String
  | .navigate url => some url
  | _ => none

/-- The key-value pairs a recorder of raw calls observes being written to
page storage. -/
def storageWrites (t : List Event) : List (String × JSValue) :=
  t.filterMap fun e =>
    match e with
    | .setStorage k v => some (k, v)
    | _ => none

/-- `true` on storage writes whose value is a native boolean. -/
def isBoolWrite : Event → Bool
  | .setStorage _ (.bool _) => true
  | _ => false

/-- State relevant to `WebBrowser.__exit__`: whether the remote driver
session is still alive and whether the `atexit` cleanup hook is still
registered. -/
structure SessionState where
  driverAlive : Bool
  hookRegistered : Bool
deriving DecidableEq

/-- `WebBrowser.__exit__`: tear down the driver session
(`self.driver.__exit__()`, modelled through the spec's black-box contract
for the remote driver: tearing down a session — alive or already gone —
leaves it gone and does not raise) and unregister the `atexit` hook
(`atexit.unregister` is a no-op when the callback is absent). -/
def exit_close (s : SessionState) : SessionState :=
  { driverAlive := false, hookRegistered := false }

/-- Errors of the element-lookup primitives (`NoSuchElementException`,
which the specification names `ElementNotFoundError`). -/
inductive LookupError where
  | elementNotFound
deriving DecidableEq

/-- Modelled from the spec: the remote driver's implicit-wait lookup.  A
`find_element` call polls the DOM and returns as soon as the element
appears; if it never appears within `bound` seconds the call fails with
`ElementNotFoundError` after exactly `bound` seconds.  `appearsAt = none`
means the element never appears.  The result carries the seconds spent
in the call. -/
def findWithImplicitWait (bound : Nat) (appearsAt : Option Nat) :
    Except LookupError Unit × Nat :=
  match appearsAt with
  | some t => if t ≤ bound then (.ok (), t) else (.error .elementNotFound, bound)
  | none => (.error .elementNotFound, bound)

/-- `WebBrowser.element_by_id` as a timed lookup: it delegates to the
driver, which applies the session-wide implicit wait bound. -/
def element_by_id_timed (appearsAt : Option Nat) : Except LookupError Unit × Nat :=
  findWithImplicitWait implicitWaitSeconds appearsAt

/-- `WebBrowser.element_by_text` as a timed lookup: same bound, since the
implicit wait is installed once per session. -/
def element_by_text_timed (appearsAt : Option Nat) : Except LookupError Unit × Nat :=
  findWithImplicitWait implicitWaitSeconds appearsAt

mutual
/-- A DOM node: a text node or an element with a tag and children. -/
inductive DomNode where
  | text (s : String)
  | elem (tag : String) (children : DomForest)
/-- A sequence of sibling DOM nodes in document order. -/
inductive DomForest where
  | nil
  | cons (n : DomNode) (rest : DomForest)
end

mutual
/-- Full text content of a DOM node (the DOM `textContent`). -/
def textContent : DomNode → String
  | .text s => s
  | .elem _ cs => textContentForest cs
/-- Full text content of a forest: concatenation in document order. -/
def textContentForest : DomForest → String
  | .nil => ""
  | .cons n rest => textContent n ++ textContentForest rest
end

/-- The string values of the top-level text nodes of a forest. -/
def textsOf : DomForest → List String
  | .nil => []
  | .cons (.text s) rest => s :: textsOf rest
  | .cons (.elem _ _) rest => textsOf rest

/-- The direct text-node children of a node (the node-set `text()`
selects in XPath). -/
def directTexts : DomNode → List String
  | .text _ => []
  | .elem _ cs => textsOf cs

mutual
/-- All element nodes of a subtree in document (pre-)order. -/
def descElemsNode : DomNode → List DomNode
  | .text _ => []
  | .elem t cs => .elem t cs :: descElemsForest cs
/-- All element nodes of a forest in document (pre-)order. -/
def descElemsForest : DomForest → List DomNode
  | .nil => []
  | .cons n rest => descElemsNode n ++ descElemsForest rest
end

/-- Whether a tag passes the `element_type` filter (`"*"` matches any). -/
def tagMatches (filter tag : String) : Bool :=
  filter == "*" || filter == tag

/-- Boolean test: does `hay` start with `needle`? -/
def startsWithSeq : List Char → List Char → Bool
  | _, [] => true
  | [], _ :: _ => false
  | h :: t, n :: m => h == n && startsWithSeq t m

/-- Boolean test: does `hay` contain `needle` as a contiguous
subsequence? -/
def hasSub : List Char → List Char → Bool
  | [], needle => needle.isEmpty
  | h :: t, needle => startsWithSeq (h :: t) needle || hasSub t needle

/-- XPath 1.0 string containment for strings. -/
def strContainsB (hay needle : String) : Bool :=
  hasSub hay.data needle.data

/-- XPath 1.0 semantics of the predicate of the xpath built by
`element_by_text`.  For a full-text match, `[text()="t"]` compares the
node-set of direct text children with a string, which is true when some
member equals `t`.  For a partial match, `[contains(text(), "t")]`
converts the node-set to a string — the string-value of its first node,
or the empty string when it is empty — and tests containment. -/
def xpathTextPred (text : String) (full_text : Bool) (n : DomNode) : Bool :=
  if full_text then (directTexts n).contains text
  else strContainsB ((directTexts n).headD "") text

/-- `driver.find_element_by_xpath` on the xpath built by
`element_by_text`: the first element, in document order, whose tag passes
the filter and whose text predicate holds. -/
def element_by_text_dom (root : DomNode) (text : String)
    (element_type : String := "*") (full_text : Bool := true) : Option DomNode :=
  (descElemsNode root).find? fun n =>
    match n with
    | .elem tag _ => tagMatches element_type tag && xpathTextPred text full_text n
    | .text _ => false

/-- A DOM in which an element has both a direct text child and further
text inside a descendant element:
`<html><div>a<span>x</span></div></html>`. -/
def domMixed : DomNode :=
  .elem "html" (.cons (.elem "div" (.cons (.text "a")
    (.cons (.elem "span" (.cons (.text "x") .nil)) .nil))) .nil)

/-- A one-element DOM carrying a single text child. -/
def domSimple : DomNode := .elem "div" (.cons (.text "hello") .nil)

/-- `true` on failing liveness probes. -/
def isProbeFail : Event → Bool
  | .probeFail => true
  | _ => false

/-- `true` on successful liveness probes. -/
def isProbeOk : Event → Bool
  | .probeOk => true
  | _ => false

/-- A sample preference-override mapping, for exercising the merge law. -/
def overridesSample : List (String × PrefValue) :=
  [("media.autoplay.default", .int 5), ("gfx.webrender.all", .bool true)]

/-- A configuration record whose `course_id` is missing. -/
def argsMissingCourse : RunAllArgs :=
  { base_url := some "https://lms.example.edu", username := some "u",
    password := some "p", course_id := none, launch_button := some "Math 101" }

/-! ## Helper lemmas -/

theorem str_data_append (s t : String) : (s ++ t).data = s.data ++ t.data := by
  cases s
  cases t
  rfl

theorem lookupAssoc_insertAssoc_self {β : Type} :
    ∀ (l : List (String × β)) (k : String) (v : β),
      lookupAssoc (insertAssoc l k v) k = some v
  | [], k, v => by simp [insertAssoc, lookupAssoc]
  | (a, b) :: rest, k, v => by
      by_cases h : a = k
      · simp [insertAssoc, h, lookupAssoc]
      · simp only [insertAssoc, if_neg h, lookupAssoc, if_neg h]
        exact lookupAssoc_insertAssoc_self rest k v

theorem lookupAssoc_insertAssoc_ne {β : Type} :
    ∀ (l : List (String × β)) (k k' : String) (v : β), k ≠ k' →
      lookupAssoc (insertAssoc l k v) k' = lookupAssoc l k'
  | [], k, k', v, h => by simp [insertAssoc, lookupAssoc, h]
  | (a, b) :: rest, k, k', v, h => by
      by_cases ha : a = k
      · subst ha
        simp [insertAssoc, lookupAssoc, h]
      · simp only [insertAssoc, if_neg ha, lookupAssoc]
        by_cases ha' : a = k'
        · simp [ha']
        · simp only [if_neg ha']
          exact lookupAssoc_insertAssoc_ne rest k k' v h

theorem lookupAssoc_mergeAssoc_not_mem {β : Type} :
    ∀ (extra base : List (String × β)) (k : String), k ∉ extra.map Prod.fst →
      lookupAssoc (mergeAssoc base extra) k = lookupAssoc base k
  | [], base, k, _ => rfl
  | (k0, v0) :: rest, base, k, h => by
      simp only [List.map_cons, List.mem_cons, not_or] at h
      have step : mergeAssoc base ((k0, v0) :: rest) =
          mergeAssoc (insertAssoc base k0 v0) rest := rfl
      rw [step, lookupAssoc_mergeAssoc_not_mem rest _ k h.2,
        lookupAssoc_insertAssoc_ne base k0 k v0 (fun he => h.1 he.symm)]

theorem lookupAssoc_mergeAssoc_mem {β : Type} :
    ∀ (extra base : List (String × β)) (k : String) (v : β),
      (extra.map Prod.fst).Nodup → (k, v) ∈ extra →
      lookupAssoc (mergeAssoc base extra) k = some v
  | [], _, _, _, _, hmem => by simp at hmem
  | (k0, v0) :: rest, base, k, v, hnd, hmem => by
      simp only [List.map_cons, List.nodup_cons] at hnd
      have step : mergeAssoc base ((k0, v0) :: rest) =
          mergeAssoc (insertAssoc base k0 v0) rest := rfl
      rcases List.mem_cons.mp hmem with he | hrest
      · obtain ⟨hk, hv⟩ := Prod.mk.injEq .. ▸ he
        subst hk
        subst hv
        rw [step, lookupAssoc_mergeAssoc_not_mem rest _ k hnd.1,
          lookupAssoc_insertAssoc_self]
      · rw [step, lookupAssoc_mergeAssoc_mem rest _ k v hnd.2 hrest]

theorem waitEvents_sleep_five :
    ∀ (k : Nat) (d : Nat), Event.sleepEv d ∈ waitEvents k → d = 5
  | 0, d, h => by simpa [waitEvents] using h
  | k + 1, d, h => by
      simp only [waitEvents, List.mem_cons] at h
      rcases h with h | h | h
      · exact (Event.sleepEv.injEq .. ▸ h)
      · exact absurd h (by simp)
      · exact waitEvents_sleep_five k d h

theorem getLast?_cons_of_some {α : Type} (x : α) (l : List α) (a : α)
    (h : l.getLast? = some a) : (x :: l).getLast? = some a := by
  cases l with
  | nil => simp at h
  | cons y t => rw [List.getLast?_cons_cons]; exact h

theorem waitEvents_getLast :
    ∀ k : Nat, (waitEvents k).getLast? = some Event.probeFail
  | 0 => rfl
  | k + 1 => by
      rw [waitEvents]
      exact getLast?_cons_of_some _ _ _
        (getLast?_cons_of_some _ _ _ (waitEvents_getLast k))


theorem waitEvents_countP_fail :
    ∀ k : Nat, (waitEvents k).countP isProbeFail = 1
  | 0 => rfl
  | k + 1 => by
      simp only [waitEvents, List.countP_cons]
      rw [waitEvents_countP_fail k]
      rfl

theorem waitEvents_countP_ok :
    ∀ k : Nat, (waitEvents k).countP isProbeOk = k
  | 0 => rfl
  | k + 1 => by
      simp only [waitEvents, List.countP_cons]
      rw [waitEvents_countP_ok k]
      simp [isProbeOk]

theorem waitInterrupted_sleep_five :
    ∀ (j : Nat) (d : Nat), Event.sleepEv d ∈ waitInterrupted j → d = 5
  | 0, d, h => by simp [waitInterrupted] at h
  | j + 1, d, h => by
      simp only [waitInterrupted, List.mem_cons] at h
      rcases h with h | h | h
      · exact (Event.sleepEv.injEq .. ▸ h)
      · exact absurd h (by simp)
      · exact waitInterrupted_sleep_five j d h

theorem waitInterrupted_no_fail :
    ∀ j : Nat, Event.probeFail ∉ waitInterrupted j
  | 0 => by simp [waitInterrupted]
  | j + 1 => by
      simp only [waitInterrupted, List.mem_cons, not_or]
      exact ⟨by simp, by simp, waitInterrupted_no_fail j⟩

theorem string_append_assoc (a b c : String) : a ++ b ++ c = a ++ (b ++ c) := by
  cases a with
  | mk la =>
      cases b with
      | mk lb =>
          cases c with
          | mk lc =>
              show String.mk (la ++ lb ++ lc) = String.mk (la ++ (lb ++ lc))
              rw [List.append_assoc]

theorem waitEvents_nav_empty : ∀ k : Nat, (waitEvents k).filterMap navUrlOf = []
  | 0 => rfl
  | k + 1 => by simp [waitEvents, navUrlOf, waitEvents_nav_empty k]

theorem probeFail_sublist_wait :
    ∀ k : Nat, List.Sublist [Event.probeFail] (waitEvents k)
  | 0 => .cons _ (.cons₂ _ .slnil)
  | k + 1 => .cons _ (.cons _ (probeFail_sublist_wait k))

theorem b64padCount_step (n : Nat) : b64padCount (n + 1 + 1 + 1) = b64padCount n := by
  have h : (n + 1 + 1 + 1) % 3 = n % 3 := by omega
  unfold b64padCount
  rw [h]

theorem b64encodeRaw_eq :
    ∀ data : List Nat,
      b64encodeRaw data =
        (b64sextets data).map encChar ++
          List.replicate (b64padCount data.length) '='
  | [] => rfl
  | [b0] => rfl
  | [b0, b1] => rfl
  | b0 :: b1 :: b2 :: rest => by
      simp only [b64encodeRaw, b64sextets, List.map_cons, List.length_cons,
        List.cons_append]
      rw [b64padCount_step, ← b64encodeRaw_eq rest]

theorem b64sextets_lt :
    ∀ data : List Nat, (∀ b ∈ data, b < 256) → ∀ x ∈ b64sextets data, x < 64
  | [], _, x, hx => by simp [b64sextets] at hx
  | [b0], h, x, hx => by
      have h0 := h b0 (by simp)
      simp only [b64sextets, List.mem_cons, List.not_mem_nil, or_false] at hx
      rcases hx with rfl | rfl <;> omega
  | [b0, b1], h, x, hx => by
      have h0 := h b0 (by simp)
      have h1 := h b1 (by simp)
      simp only [b64sextets, List.mem_cons, List.not_mem_nil, or_false] at hx
      rcases hx with rfl | rfl | rfl <;> omega
  | b0 :: b1 :: b2 :: rest, h, x, hx => by
      have h0 := h b0 (by simp)
      have h1 := h b1 (by simp)
      have h2 := h b2 (by simp)
      simp only [b64sextets, List.mem_cons] at hx
      rcases hx with rfl | rfl | rfl | rfl | hx
      · omega
      · omega
      · omega
      · omega
      · exact b64sextets_lt rest (fun b hb => h b (by simp [hb])) x hx

theorem decChar_encChar : ∀ n : Nat, n < 64 → decChar (encChar n) = n := by decide

theorem encChar_ne_pad : ∀ n : Nat, n < 64 → (encChar n == '=') = false := by decide

theorem map_decChar_encChar :
    ∀ l : List Nat, (∀ x ∈ l, x < 64) → (l.map encChar).map decChar = l
  | [], _ => rfl
  | x :: t, h => by
      simp only [List.map_cons]
      rw [decChar_encChar x (h x (by simp)),
        map_decChar_encChar t (fun y hy => h y (by simp [hy]))]

theorem b64decode_encode :
    ∀ data : List Nat, (∀ b ∈ data, b < 256) →
      b64decodeSextets (b64sextets data) = data
  | [], _ => rfl
  | [b0], h => by
      have h0 := h b0 (by simp)
      simp only [b64sextets, b64decodeSextets, List.cons.injEq, and_true]
      omega
  | [b0, b1], h => by
      have h0 := h b0 (by simp)
      have h1 := h b1 (by simp)
      simp only [b64sextets, b64decodeSextets, List.cons.injEq, and_true]
      constructor
      · omega
      · omega
  | b0 :: b1 :: b2 :: rest, h => by
      have h0 := h b0 (by simp)
      have h1 := h b1 (by simp)
      have h2 := h b2 (by simp)
      simp only [b64sextets, b64decodeSextets]
      rw [b64decode_encode rest (fun b hb => h b (by simp [hb]))]
      simp only [List.cons.injEq]
      refine ⟨by omega, by omega, by omega, trivial⟩

theorem dropWhile_eq_of_all_false (ch : Char) :
    ∀ l : List Char, (∀ c ∈ l, (c == ch) = false) →
      l.dropWhile (· == ch) = l
  | [], _ => rfl
  | c :: t, h => by simp [List.dropWhile_cons, h c (by simp)]

theorem dropWhile_replicate_append (ch : Char) :
    ∀ (n : Nat) (l : List Char),
      (List.replicate n ch ++ l).dropWhile (· == ch) = l.dropWhile (· == ch)
  | 0, l => by simp
  | n + 1, l => by
      simp [List.replicate_succ, List.dropWhile_cons,
        dropWhile_replicate_append ch n l]

theorem rstripChar_append_replicate (ch : Char) (l : List Char) (n : Nat) :
    rstripChar ch (l ++ List.replicate n ch) = rstripChar ch l := by
  unfold rstripChar
  rw [List.reverse_append, List.reverse_replicate, dropWhile_replicate_append]

theorem rstripChar_eq_of_all_false (ch : Char) (l : List Char)
    (h : ∀ c ∈ l, (c == ch) = false) : rstripChar ch l = l := by
  unfold rstripChar
  rw [dropWhile_eq_of_all_false ch l.reverse
    (fun c hc => h c (List.mem_reverse.mp hc)), List.reverse_reverse]

theorem dropWhile_replicate_self (ch : Char) (n : Nat) :
    (List.replicate n ch).dropWhile (· == ch) = [] := by
  have h := dropWhile_replicate_append ch n []
  rw [List.append_nil] at h
  exact h

theorem strip_b64encodeRaw (data : List Nat) (h : ∀ b ∈ data, b < 256) :
    stripChar '=' (b64encodeRaw data) = (b64sextets data).map encChar := by
  have hbody : ∀ c ∈ (b64sextets data).map encChar, (c == '=') = false := by
    intro c hc
    rcases List.mem_map.mp hc with ⟨x, hx, rfl⟩
    exact encChar_ne_pad x (b64sextets_lt data h x hx)
  rw [b64encodeRaw_eq]
  cases hs : (b64sextets data).map encChar with
  | nil =>
      simp only [List.nil_append, stripChar, lstripChar,
        dropWhile_replicate_self, rstripChar, List.reverse_nil,
        List.dropWhile_nil]
  | cons c body =>
      have hc : (c == '=') = false := by
        have := hbody c
        rw [hs] at this
        exact this (by simp)
      have hbody' : ∀ x ∈ c :: body, (x == '=') = false := by
        intro x hx
        have := hbody x
        rw [hs] at this
        exact this hx
      unfold stripChar lstripChar
      rw [List.cons_append, List.dropWhile_cons, hc]
      simp only [Bool.false_eq_true, if_false]
      rw [← List.cons_append, rstripChar_append_replicate,
        rstripChar_eq_of_all_false '=' (c :: body) hbody']

theorem startsWithSeq_append :
    ∀ (pre post : List Char), startsWithSeq (pre ++ post) pre = true
  | [], post => by cases post <;> rfl
  | c :: t, post => by
      simp [startsWithSeq, startsWithSeq_append t post]

theorem startsWithSeq_exists :
    ∀ hay needle : List Char, startsWithSeq hay needle = true →
      ∃ post, hay = needle ++ post
  | hay, [], _ => ⟨hay, rfl⟩
  | [], n :: m, h => by simp [startsWithSeq] at h
  | h0 :: t, n :: m, h => by
      simp only [startsWithSeq, Bool.and_eq_true, beq_iff_eq] at h
      obtain ⟨rfl, h2⟩ := h
      obtain ⟨post, hp⟩ := startsWithSeq_exists t m h2
      exact ⟨post, by rw [List.cons_append, hp]⟩

theorem hasSub_exists :
    ∀ hay needle : List Char, hasSub hay needle = true →
      ∃ pre post, hay = pre ++ needle ++ post
  | [], needle, h => by
      simp only [hasSub, List.isEmpty_iff] at h
      exact ⟨[], [], by simp [h]⟩
  | h0 :: t, needle, h => by
      simp only [hasSub, Bool.or_eq_true] at h
      rcases h with h | h
      · obtain ⟨post, hp⟩ := startsWithSeq_exists _ _ h
        exact ⟨[], post, by simp [hp]⟩
      · obtain ⟨pre, post, hp⟩ := hasSub_exists t needle h
        exact ⟨h0 :: pre, post, by simp [hp]⟩

theorem contains_mem :
    ∀ (l : List String) (a : String), l.contains a = true → a ∈ l
  | [], a, h => by simp at h
  | b :: t, a, h => by
      simp only [List.contains_cons, Bool.or_eq_true, beq_iff_eq] at h
      rcases h with rfl | h
      · exact List.mem_cons_self _ _
      · exact List.mem_cons_of_mem _ (contains_mem t a h)

theorem textsOf_sub_textContent :
    ∀ (cs : DomForest) (s : String), s ∈ textsOf cs →
      ∃ a b, (textContentForest cs).data = a ++ s.data ++ b
  | .nil, s, h => by simp [textsOf] at h
  | .cons (.text s0) rest, s, h => by
      simp only [textsOf, List.mem_cons] at h
      rcases h with rfl | h
      · refine ⟨[], (textContentForest rest).data, ?_⟩
        simp only [textContentForest, textContent, str_data_append,
          List.nil_append]
      · obtain ⟨a, b, hab⟩ := textsOf_sub_textContent rest s h
        refine ⟨s0.data ++ a, b, ?_⟩
        simp only [textContentForest, textContent, str_data_append, hab,
          List.append_assoc]
  | .cons (.elem t0 cs0) rest, s, h => by
      simp only [textsOf] at h
      obtain ⟨a, b, hab⟩ := textsOf_sub_textContent rest s h
      refine ⟨(textContent (.elem t0 cs0)).data ++ a, b, ?_⟩
      simp only [textContentForest, str_data_append, hab, List.append_assoc]

theorem run_all_full_eq (b u p ci lb : String) (k : Nat) :
    (run_all (fullArgs b u p ci lb) k).1 =
      initEvents [] false ++ sign_in b u p ++ launch_collaborate b ci lb ++
      configure_collaborate none ++ waitEvents k ++ [.quitSession] := rfl

/-! ## Claim theorems -/

/-- Claim C1: on a fully populated configuration, `run_all` issues the
claimed call ordering against the session: navigate to the base URL
(this is the first navigation), locate the `user_id` and `password`
fields, click the submit locator, locate the post-login marker, navigate
to a URL containing both the base URL and the course identifier (the
only other navigation), switch into the collab-ultra frame, click the
exact-match launch-button locator, click the substring locator built
around "Join", switch back to default content, write at least three
storage entries whose boolean/string values have the correct native
type, and finally block on session close — the trace ends with the
failing liveness probe and the session quit. -/
theorem run_all_call_order (b u p ci lb : String) (k : Nat) :
    ([.navigate b,
      .findById "user_id",
      .findById "password",
      .execClick (.byId "entry-login"),
      .findById "topframe.logout.label",
      .navigate (collabUrl b ci),
      .switchToFrame (.byId "collabUltraLtiFrame"),
      .execClick (.byXPath (xpathExact lb "*")),
      .execClick (.byXPath (xpathContains "Join" "*")),
      .switchToDefaultContent,
      .setStorage "techcheck.status" (.str "complete"),
      .setStorage "ftue.announcement.introduction" (.bool true),
      .setStorage "profile.notification.roster.visual" (.bool false),
      .probeFail,
      .quitSession] : List Event).Sublist (run_all (fullArgs b u p ci lb) k).1 ∧
    (run_all (fullArgs b u p ci lb) k).1.filterMap navUrlOf = [b, collabUrl b ci] ∧
    (∃ s, collabUrl b ci = b ++ s) ∧
    (∃ q, collabUrl b ci = q ++ ci) ∧
    (run_all (fullArgs b u p ci lb) k).1.getLast? = some .quitSession := by
  refine ⟨?_, ?_,
    ⟨"/webapps/collab-ultra/tool/collabultra?course_id=" ++ ci,
      string_append_assoc b "/webapps/collab-ultra/tool/collabultra?course_id=" ci⟩,
    ⟨b ++ "/webapps/collab-ultra/tool/collabultra?course_id=", rfl⟩, ?_⟩
  · rw [run_all_full_eq]
    simp only [initEvents, sign_in, launch_collaborate, configure_collaborate,
      List.cons_append, List.nil_append, List.append_assoc]
    refine .cons _ (.cons _ (.cons _ ?_))
    refine .cons₂ _ ?_
    refine .cons₂ _ ?_
    refine .cons _ ?_
    refine .cons₂ _ ?_
    refine .cons _ ?_
    refine .cons _ ?_
    refine .cons₂ _ ?_
    refine .cons₂ _ ?_
    refine .cons₂ _ ?_
    refine .cons _ ?_
    refine .cons₂ _ ?_
    refine .cons _ ?_
    refine .cons₂ _ ?_
    refine .cons _ ?_
    refine .cons _ ?_
    refine .cons₂ _ ?_
    refine .cons₂ _ ?_
    refine .cons _ ?_
    refine .cons _ ?_
    refine .cons₂ _ ?_
    refine .cons₂ _ ?_
    refine .cons _ ?_
    refine .cons₂ _ ?_
    refine .cons _ ?_
    refine .cons _ ?_
    exact (probeFail_sublist_wait k).append (List.Sublist.refl _)
  · rw [run_all_full_eq]
    simp [initEvents, sign_in, launch_collaborate, configure_collaborate,
      navUrlOf, waitEvents_nav_empty k]
  · rw [run_all_full_eq]
    simp

/-- Claim C2: for every configuration record missing a required field,
`run_all` fails with the missing-parameter error (Python's `TypeError`
while binding keyword arguments, which the spec calls
`MissingParameterError`), the error names exactly the missing required
parameters, and the failure happens before any call — in particular any
navigation — is issued to the session. -/
theorem run_all_missing_parameter (a : RunAllArgs) (n : Nat)
    (h : missingParams a ≠ []) :
    (run_all a n).1 = [] ∧
    (run_all a n).2 = some (.missingParameter (missingParams a)) ∧
    ∀ url, Event.navigate url ∉ (run_all a n).1 := by
  have herr : run_all a n = ([], some (.missingParameter (missingParams a))) := by
    rcases hb : a.base_url with _ | b
    · simp [run_all, hb]
    rcases hu : a.username with _ | u
    · simp [run_all, hb, hu]
    rcases hp : a.password with _ | p
    · simp [run_all, hb, hu, hp]
    rcases hc : a.course_id with _ | c
    · simp [run_all, hb, hu, hp, hc]
    rcases hl : a.launch_button with _ | l
    · simp [run_all, hb, hu, hp, hc, hl]
    exact absurd (by simp [missingParams, hb, hu, hp, hc, hl]) h
  rw [herr]
  exact ⟨rfl, rfl, by simp⟩

/-- Witness for C2 at a configuration missing `course_id`. -/
theorem run_all_missing_parameter_witness :
    missingParams argsMissingCourse ≠ [] ∧
    ((run_all argsMissingCourse 0).1 = [] ∧
     (run_all argsMissingCourse 0).2 =
       some (.missingParameter (missingParams argsMissingCourse)) ∧
     ∀ url, Event.navigate url ∉ (run_all argsMissingCourse 0).1) :=
  ⟨by decide, run_all_missing_parameter argsMissingCourse 0 (by decide)⟩

/-- Claim C3: merging the fixed baseline preference set with a
caller-supplied override mapping is override-wins, key by key: every
binding of the overrides ends up in the merged set with the override's
value, and every key the overrides do not mention keeps its baseline
value. -/
theorem prefs_merge_override_wins (O : List (String × PrefValue)) (k : String)
    (hnd : (O.map Prod.fst).Nodup) :
    (∀ v, (k, v) ∈ O → lookupAssoc (mergeAssoc defaultPrefs O) k = some v) ∧
    (k ∉ O.map Prod.fst →
      lookupAssoc (mergeAssoc defaultPrefs O) k = lookupAssoc defaultPrefs k) :=
  ⟨fun v hv => lookupAssoc_mergeAssoc_mem O defaultPrefs k v hnd hv,
   fun hk => lookupAssoc_mergeAssoc_not_mem O defaultPrefs k hk⟩

/-- Witness for C3: a concrete override mapping overriding
`media.autoplay.default` and adding a fresh key, with an untouched
baseline key keeping its baseline value. -/
theorem prefs_merge_override_wins_witness :
    ((overridesSample.map Prod.fst).Nodup ∧
     lookupAssoc (mergeAssoc defaultPrefs overridesSample)
       "media.autoplay.default" = some (.int 5)) ∧
    lookupAssoc (mergeAssoc defaultPrefs overridesSample)
      "media.navigator.streams.fake" = some (.bool true) :=
  ⟨⟨by decide,
    (prefs_merge_override_wins overridesSample "media.autoplay.default"
      (by decide)).1 (.int 5) (by decide)⟩,
   by
    rw [(prefs_merge_override_wins overridesSample "media.navigator.streams.fake"
      (by decide)).2 (by decide)]
    decide⟩

/-- Claim C4: `__setitem__` passes the value through to the raw
`execute_script` storage write unchanged, so a recorder of raw calls
observes exactly the input value: it observes a native boolean exactly
when the input was a boolean, and for boolean inputs the recorded value
is never the string `"true"` or `"false"`.  In particular the two
boolean entries `configure_collaborate` writes are recorded as native
booleans. -/
theorem setstorage_preserves_native_type (k : String) (v : JSValue) :
    storageWrites (localstorage_setitem_events k v) = [(k, v)] ∧
    (localstorage_setitem_events k v).countP isBoolWrite =
      (if v.isBool then 1 else 0) ∧
    (∀ b : Bool, JSValue.bool b ≠ JSValue.str "true" ∧
      JSValue.bool b ≠ JSValue.str "false") ∧
    ("ftue.announcement.introduction", JSValue.bool true) ∈
      storageWrites (configure_collaborate none) ∧
    ("profile.notification.roster.visual", JSValue.bool false) ∈
      storageWrites (configure_collaborate none) := by
  refine ⟨by simp [storageWrites, localstorage_setitem_events], ?_, ?_, ?_, ?_⟩
  · cases v <;> simp [localstorage_setitem_events, isBoolWrite, JSValue.isBool]
  · intro b; exact ⟨by simp, by simp⟩
  · decide
  · decide

/-- Claim C5 as stated is false on the code: for the present-but-empty
MIME type `some ""` the declared MIME type of the result is not `""`.
Python's `if not mimetype` treats the empty string like `None`, so the
result uses the generic binary fallback and does not have the claimed
form `"data:" ++ "" ++ ";base64," ++ payload` for any payload. -/
theorem bytes_to_data_uri_empty_mime :
    bytes_to_data_uri [] (some "") = "data:application/octet-stream;base64," ∧
    ¬ ∃ payload : String,
        bytes_to_data_uri [] (some "") = "data:" ++ "" ++ ";base64," ++ payload := by
  refine ⟨rfl, ?_⟩
  rintro ⟨p, hp⟩
  have h1 : bytes_to_data_uri [] (some "") =
      "data:application/octet-stream;base64," := rfl
  rw [h1] at hp
  have hd := congrArg String.data hp
  rw [str_data_append] at hd
  have hsw : startsWithSeq ("data:application/octet-stream;base64,".data)
      (("data:" ++ "" ++ ";base64,").data) = true := by
    rw [hd]
    exact startsWithSeq_append _ _
  have hne : startsWithSeq ("data:application/octet-stream;base64,".data)
      (("data:" ++ "" ++ ";base64,").data) = false := by decide
  rw [hsw] at hne
  exact Bool.noConfusion hne

/-- Claim C5, amended: `bytes_to_data_uri` is total and pure; the result
is `"data:" ++ m ++ ";base64," ++ payload` where `m` is the supplied MIME
type unless that is absent *or empty*, in which case it is the generic
binary fallback; the payload is the padding-stripped base64 encoding of
the bytes, and decoding it yields exactly the input bytes. -/
theorem bytes_to_data_uri_roundtrip (data : List Nat) (mimetype : Option String)
    (h : ∀ b ∈ data, b < 256) :
    bytes_to_data_uri data mimetype =
      "data:" ++ b64mime mimetype ++ ";base64," ++
        String.mk (stripChar '=' (b64encodeRaw data)) ∧
    b64decodeString (String.mk (stripChar '=' (b64encodeRaw data))) = data ∧
    (∀ s, s ≠ "" → b64mime (some s) = s) ∧
    b64mime none = "application/octet-stream" := by
  refine ⟨rfl, ?_, ?_, rfl⟩
  · show b64decodeSextets ((stripChar '=' (b64encodeRaw data)).map decChar) = data
    rw [strip_b64encodeRaw data h, map_decChar_encChar _ (b64sextets_lt data h)]
    exact b64decode_encode data h
  · intro s hs
    simp [b64mime, hs]

/-- Witness for the amended C5 at the bytes of "Ma" with MIME type
`text/plain`. -/
theorem bytes_to_data_uri_roundtrip_witness :
    (∀ b ∈ [77, 97], b < 256) ∧
    (bytes_to_data_uri [77, 97] (some "text/plain") =
       "data:" ++ b64mime (some "text/plain") ++ ";base64," ++
         String.mk (stripChar '=' (b64encodeRaw [77, 97])) ∧
     b64decodeString (String.mk (stripChar '=' (b64encodeRaw [77, 97]))) =
       [77, 97] ∧
     (∀ s, s ≠ "" → b64mime (some s) = s) ∧
     b64mime none = "application/octet-stream") :=
  ⟨by decide, bytes_to_data_uri_roundtrip [77, 97] (some "text/plain") (by decide)⟩

/-- Claim C6: `close()` (the `__exit__` method) is idempotent: any
`n ≥ 1` applications end in the same state as one — session gone,
cleanup hook unregistered — and each application past the first is a
no-op on the state. -/
theorem close_idempotent (s : SessionState) (n : Nat) (h : 1 ≤ n) :
    exit_close^[n] s = exit_close s ∧
    exit_close s = { driverAlive := false, hookRegistered := false } ∧
    exit_close (exit_close s) = exit_close s := by
  have key : ∀ (m : Nat) (t : SessionState),
      exit_close^[m] (exit_close t) = exit_close t := by
    intro m
    induction m with
    | zero => intro t; rfl
    | succ m ih =>
        intro t
        rw [Function.iterate_succ_apply]
        exact ih t
  obtain ⟨m, rfl⟩ : ∃ m, n = m + 1 := ⟨n - 1, by omega⟩
  exact ⟨by rw [Function.iterate_succ_apply]; exact key m s, rfl, rfl⟩

/-- Witness for C6 with three calls on a fully live session. -/
theorem close_idempotent_witness :
    1 ≤ 3 ∧
    (exit_close^[3] ⟨true, true⟩ = exit_close ⟨true, true⟩ ∧
     exit_close ⟨true, true⟩ = { driverAlive := false, hookRegistered := false } ∧
     exit_close (exit_close ⟨true, true⟩) = exit_close ⟨true, true⟩) :=
  ⟨by decide, close_idempotent ⟨true, true⟩ 3 (by decide)⟩

/-- Claim C7 as stated is false on the code: in the DOM
`<html><div>a<span>x</span></div></html>` the exact-match locator for
"a" resolves to the `div`, whose full text content is "ax", not "a" —
the xpath `[text()="a"]` compares the direct text-node children, not the
element's full text content. -/
theorem element_by_text_exact_counterexample :
    (element_by_text_dom domMixed "a" "*" true).map textContent = some "ax" ∧
    "ax" ≠ "a" := by
  exact ⟨rfl, by decide⟩

/-- Claim C7, amended: with `matchMode=exact` the locator resolves only
to an element one of whose direct text-node children equals the given
text (which coincides with full-text equality when the element's entire
content is one text node); with `matchMode=substring` it resolves only
to an element whose full text content contains the given text. -/
theorem element_by_text_semantics (root : DomNode) (text ty : String)
    (e : DomNode) :
    (element_by_text_dom root text ty true = some e → text ∈ directTexts e) ∧
    (element_by_text_dom root text ty false = some e →
      ∃ a b, (textContent e).data = a ++ text.data ++ b) := by
  constructor
  · intro h
    have hp := List.find?_some h
    cases e with
    | text s => simp at hp
    | elem tag cs =>
        simp only [Bool.and_eq_true] at hp
        have hc : xpathTextPred text true (.elem tag cs) = true := hp.2
        simp only [xpathTextPred, if_true] at hc
        exact contains_mem _ text hc
  · intro h
    have hp := List.find?_some h
    cases e with
    | text s => simp at hp
    | elem tag cs =>
        simp only [Bool.and_eq_true] at hp
        have hc : xpathTextPred text false (.elem tag cs) = true := hp.2
        simp only [xpathTextPred, if_false, strContainsB] at hc
        cases hd : directTexts (.elem tag cs) with
        | nil =>
            rw [hd] at hc
            simp only [List.headD_nil] at hc
            have htxt : text.data = [] := by
              simpa [hasSub, List.isEmpty_iff] using hc
            exact ⟨[], (textContent (.elem tag cs)).data, by simp [htxt]⟩
        | cons s0 rest =>
            rw [hd] at hc
            simp only [List.headD_cons] at hc
            obtain ⟨p1, q1, h01⟩ := hasSub_exists _ _ hc
            have hs0 : s0 ∈ textsOf cs := by
              have hm : s0 ∈ directTexts (.elem tag cs) := by
                rw [hd]
                exact List.mem_cons_self _ _
              simpa [directTexts] using hm
            obtain ⟨a, b, hab⟩ := textsOf_sub_textContent cs s0 hs0
            refine ⟨a ++ p1, q1 ++ b, ?_⟩
            rw [show textContent (.elem tag cs) = textContentForest cs from rfl,
              hab, h01]
            simp [List.append_assoc]

/-- Witness for the amended C7 on a one-element DOM: the exact locator
for "hello" and the substring locator for "ell" both resolve to the
element, giving a direct text child "hello" and a text content
containing "ell". -/
theorem element_by_text_semantics_witness :
    "hello" ∈ directTexts domSimple ∧
    ∃ a b, (textContent domSimple).data = a ++ "ell".data ++ b :=
  ⟨(element_by_text_semantics domSimple "hello" "*" domSimple).1 rfl,
   (element_by_text_semantics domSimple "ell" "*" domSimple).2 rfl⟩

/-- Claim C8: with the fake element never appearing, both lookup
primitives fail with `ElementNotFoundError` after exactly the implicit
wait bound — no earlier and no later; the bound is a single fixed
duration of 45 seconds, inside the spec's 30–45 range, installed at
session open and shared by every lookup. -/
theorem implicit_wait_timeout :
    element_by_id_timed none = (.error .elementNotFound, implicitWaitSeconds) ∧
    element_by_text_timed none = (.error .elementNotFound, implicitWaitSeconds) ∧
    30 ≤ implicitWaitSeconds ∧ implicitWaitSeconds ≤ 45 ∧
    ∀ (extra : List (String × PrefValue)) (customProfile : Bool),
      Event.implicitlyWait implicitWaitSeconds ∈ initEvents extra customProfile := by
  refine ⟨rfl, rfl, by decide, by decide, ?_⟩
  intro extra customProfile
  simp [initEvents]

/-- Claim C9: `wait_until_window_close` sleeps a fixed 5 seconds before
each liveness probe; when the session terminates after `k` healthy
probes the trace ends with the single failing probe and the call returns
normally with `windowClosed`; when the process is interrupted the call
also returns (outcome `interrupted`) without ever reaching a failing
probe. -/
theorem wait_until_window_close_poll (k j : Nat) :
    (∀ d, Event.sleepEv d ∈ (wait_until_window_close (.closesAfter k)).1 → d = 5) ∧
    (wait_until_window_close (.closesAfter k)).1.getLast? = some .probeFail ∧
    (wait_until_window_close (.closesAfter k)).1.countP isProbeFail = 1 ∧
    (wait_until_window_close (.closesAfter k)).1.countP isProbeOk = k ∧
    (wait_until_window_close (.closesAfter k)).2 = .windowClosed ∧
    (∀ d, Event.sleepEv d ∈ (wait_until_window_close (.interruptAfter j)).1 → d = 5) ∧
    (wait_until_window_close (.interruptAfter j)).2 = .interrupted ∧
    Event.probeFail ∉ (wait_until_window_close (.interruptAfter j)).1 :=
  ⟨waitEvents_sleep_five k, waitEvents_getLast k, waitEvents_countP_fail k,
   waitEvents_countP_ok k, rfl, waitInterrupted_sleep_five j, rfl,
   waitInterrupted_no_fail j⟩

/-- Claim C10 is false on the code: `__getitem__`'s body is the bare
expression `NotImplemented`, so reading any key returns Python `None`;
in particular reading `"k"` right after writing `"v"` to it does not
return the stored value. -/
theorem storage_read_returns_none :
    localstorage_getitem (localstorage_setitem_state [] "k" (.str "v")) "k" ≠
      some (JSValue.str "v") := by
  simp [localstorage_getitem]

/-- Claim C10, amended: the storage primitive supports writing — the
written entry is present in the page's storage afterwards — but the read
accessor is unimplemented and returns `None` for every key, so a
write-then-read round trip yields `None`, not the stored value. -/
theorem storage_write_read_amended (st : List (String × JSValue)) (k : String)
    (v : JSValue) :
    lookupAssoc (localstorage_setitem_state st k v) k = some v ∧
    localstorage_getitem (localstorage_setitem_state st k v) k = none :=
  ⟨lookupAssoc_insertAssoc_self st k v, rfl⟩

end BbCollab
